import Mathlib

/-!
Verification development for the SmartlinksAICoachMentor repository: a shallow
embedding of the Netlify serverless `callGemini` handlers (plain and
token-validating variants) and of the client-side `ChatInterface.handleSend`,
`fetchMessages` and `performSso` flows, together with theorems settling the
specification claims about them.
-/

namespace Smartlinks

/-- The apostrophe character as a one-character string, used to build the
string literals of the source verbatim. -/
def apos : String := String.mk [Char.ofNat 39]

/-- A chat message, `{role, content}` in the source.  (Some variants carry an
extra constant `app_mode` field on messages; it is never inspected by the
logic the claims concern and is omitted.) -/
structure Message where
  role : String
  content : String
deriving Repr, DecidableEq

/-- The result of `JSON.parse(event.body)` destructured as
`{history, systemPrompt}` in the handlers. -/
structure ParsedBody where
  history : List Message
  systemPrompt : String
deriving Repr, DecidableEq

/-- One element of `content.parts` in the Gemini API result; `text` may be
absent (`undefined`). -/
structure GeminiPart where
  text : Option String
deriving Repr, DecidableEq

/-- The `content` object of a Gemini candidate; `parts` may be absent. -/
structure GeminiContent where
  parts : Option (List GeminiPart)
deriving Repr, DecidableEq

/-- One element of `result.candidates`; `content` may be absent. -/
structure GeminiCandidate where
  content : Option GeminiContent
deriving Repr, DecidableEq

/-- The JSON result of the upstream generation API; `candidates` may be
absent. -/
structure GeminiResult where
  candidates : Option (List GeminiCandidate)
deriving Repr, DecidableEq

/-- The optional chain `result.candidates?.[0]?.content?.parts?.[0]?.text`
from the handlers: `none` when any link of the chain is missing. -/
def extractText (r : GeminiResult) : Option String := do
  let cs ← r.candidates
  let c ← cs.head?
  let ct ← c.content
  let ps ← ct.parts
  let p ← ps.head?
  p.text

/-- JavaScript `s.trim()`, modelled on the character list so that it
evaluates inside the kernel: drop whitespace from both ends. -/
def jsTrim (s : String) : String :=
  String.mk
    (((s.data.dropWhile Char.isWhitespace).reverse.dropWhile
        Char.isWhitespace).reverse)

/-- JavaScript `s.startsWith(p)`, modelled on the character list so that it
evaluates inside the kernel. -/
def jsStartsWith (s p : String) : Bool :=
  p.data.isPrefixOf s.data

/-- JavaScript `s.substring(n)`, modelled on the character list so that it
evaluates inside the kernel. -/
def jsSubstringFrom (n : Nat) (s : String) : String :=
  String.mk (s.data.drop n)

/-- JavaScript `x || fb` on an optional string: the fallback is taken when
the value is absent (`undefined`) or the empty string (both falsy). -/
def jsOr (o : Option String) (fb : String) : String :=
  match o with
  | some s => if s = "" then fb else s
  | none => fb

/-- The body of a handler response: a raw text body (`'Method Not Allowed'`),
`JSON.stringify({response: s})`, or `JSON.stringify({error: s})`. -/
inductive RespBody where
  | rawText (s : String)
  | jsonResponse (s : String)
  | jsonError (s : String)
deriving Repr, DecidableEq

/-- A `{statusCode, body}` response returned by a serverless handler. -/
structure HandlerResponse where
  statusCode : Nat
  body : RespBody
deriving Repr, DecidableEq

/-- The upstream generation API call outcome observed by the handler:
`response.ok` with a parsed JSON result, or a non-OK status together with the
response body text (`await response.text()`). -/
inductive UpstreamResponse where
  | ok (result : GeminiResult)
  | err (status : Nat) (bodyText : String)
deriving Repr, DecidableEq

deriving instance DecidableEq for Except

/-- The parts of a Netlify event the handlers read: `event.httpMethod`,
`event.headers.authorization` (absent when the header is missing), and the
outcome of `JSON.parse(event.body)` destructuring (an exception message when
the body does not parse). -/
structure NetlifyEvent where
  httpMethod : String
  authorization : Option String
  body : Except String ParsedBody
deriving Repr, DecidableEq

/-- The fallback reply text of `netlify/functions/callGemini.js`:
`"Sorry, I couldn't get a response."`. -/
def noResponseFallback : String :=
  "Sorry, I couldn" ++ apos ++ "t get a response."

/-- The `try` block of the `callGemini.js` handler: parse the body, require
the API key (JS `!apiKey` rejects both a missing and an empty key), call the
upstream API, and build the response; a thrown error is an `Except.error`. -/
def handlerTry (apiKey : Option String) (upstream : UpstreamResponse)
    (body : Except String ParsedBody) : Except String HandlerResponse :=
  match body with
  | .error e => .error e
  | .ok _ =>
    let key := match apiKey with
      | some k => k
      | none => ""
    if key = "" then .error "API key is not configured."
    else
      match upstream with
      | .err status errorBody =>
          .ok ⟨status, .jsonError ("API request failed: " ++ errorBody)⟩
      | .ok result =>
          .ok ⟨200, .jsonResponse (jsOr (extractText result) noResponseFallback)⟩

/-- The `netlify/functions/callGemini.js` handler (the `part_001` first
variant is identical up to its fallback text): reject non-POST with 405,
otherwise run the `try` block and convert any thrown error into a 500
response with a JSON `{error}` body. -/
def handler (event : NetlifyEvent) (apiKey : Option String)
    (upstream : UpstreamResponse) : HandlerResponse :=
  if event.httpMethod ≠ "POST" then ⟨405, .rawText "Method Not Allowed"⟩
  else
    match handlerTry apiKey upstream event.body with
    | .ok resp => resp
    | .error e => ⟨500, .jsonError e⟩

/-- A token-validating handler run: the returned response together with
whether the upstream generation-API call was issued. -/
structure ValidatingResult where
  response : HandlerResponse
  calledUpstream : Bool
deriving Repr, DecidableEq

/-- The token-validating handler of `part_000` and of the second variant in
`part_001` (identical logic; they differ only inside `validateToken`, taken
here as the parameter `validate`): method check; 401 when the authorization
header is absent or does not start with `"Bearer "`; 401 wrapping the
validation error message when the token fails validation; then body parse,
API-key check, upstream call and response exactly as in `callGemini.js`,
with any thrown error converted into a 500 `{error}` response. -/
def validatingHandler (event : NetlifyEvent)
    (validate : String → Except String Unit) (apiKey : Option String)
    (upstream : UpstreamResponse) : ValidatingResult :=
  if event.httpMethod ≠ "POST" then
    ⟨⟨405, .rawText "Method Not Allowed"⟩, false⟩
  else
    match event.authorization with
    | none => ⟨⟨401, .jsonError "Unauthorized: No token provided."⟩, false⟩
    | some authHeader =>
      if jsStartsWith authHeader "Bearer " then
        match validate (jsSubstringFrom 7 authHeader) with
        | .error msg =>
            ⟨⟨401, .jsonError ("Unauthorized: " ++ msg)⟩, false⟩
        | .ok _ =>
          match event.body with
          | .error e => ⟨⟨500, .jsonError e⟩, false⟩
          | .ok _ =>
            let key := match apiKey with
              | some k => k
              | none => ""
            if key = "" then
              ⟨⟨500, .jsonError "Gemini API key is not configured on the server."⟩, false⟩
            else
              match upstream with
              | .err status errorBody =>
                  ⟨⟨status, .jsonError ("API request failed: " ++ errorBody)⟩, true⟩
              | .ok result =>
                  ⟨⟨200, .jsonResponse (jsOr (extractText result) noResponseFallback)⟩, true⟩
      else
        ⟨⟨401, .jsonError "Unauthorized: No token provided."⟩, false⟩

/-- The environment behaviour observed by `ChatInterface.handleSend` in the
second `App.jsx` variant: `acquireTokenSilent` rejected (its error message),
or the relay `fetch` completed with `response.ok` false (status; the body
text, which this variant never reads), or it succeeded with `data.response`. -/
inductive RelayOutcome where
  | tokenError (message : String)
  | httpError (status : Nat) (bodyText : String)
  | success (responseText : String)
deriving Repr, DecidableEq

/-- Result of one `handleSend` run: the final `messages` state and, when the
relay `fetch` was issued, the `history` field of its JSON body (the
`systemPrompt` field is a fixed mode-determined string no claim inspects). -/
structure SendResult where
  messages : List Message
  request : Option (List Message)
deriving Repr, DecidableEq

/-- Function `ChatInterface.handleSend` of the second `App.jsx` variant: guard on
trimmed-empty input or a send in flight; append the user message; on
`!response.ok` it throws `` `API call failed with status: ${response.status}` ``
(the response body is never read), and the catch appends
`` `Sorry, there was an error: ${error.message}` `` as an assistant message;
on success it appends `data.response` as an assistant message. -/
def appHandleSend (messages : List Message) (input : String)
    (isLoading : Bool) (outcome : RelayOutcome) : SendResult :=
  if jsTrim input = "" ∨ isLoading = true then ⟨messages, none⟩
  else
    let userMessage : Message := ⟨"user", input⟩
    let withUser := messages ++ [userMessage]
    match outcome with
    | .tokenError m =>
        ⟨withUser ++ [⟨"assistant", "Sorry, there was an error: " ++ m⟩], none⟩
    | .httpError status _ =>
        ⟨withUser ++ [⟨"assistant",
            "Sorry, there was an error: API call failed with status: "
              ++ toString status⟩],
          some withUser⟩
    | .success text =>
        ⟨withUser ++ [⟨"assistant", text⟩], some withUser⟩

/-- The environment behaviour observed by `handleSend` in `part_003` (and the
third `App.jsx` variant): token rejection, non-OK fetch with the parsed error
body field `err.error` (absent when missing), or success. -/
inductive Relay3Outcome where
  | tokenError (message : String)
  | httpError (status : Nat) (errField : Option String)
  | success (responseText : String)
deriving Repr, DecidableEq

/-- Function `ChatInterface.handleSend` of `part_003`: as `appHandleSend`, except that
on `!response.ok` it parses the error body and throws
`err.error || 'Failed to get a response from the server.'`, so the appended
assistant message embeds the error body field. -/
def part3HandleSend (messages : List Message) (input : String)
    (isLoading : Bool) (outcome : Relay3Outcome) : SendResult :=
  if jsTrim input = "" ∨ isLoading = true then ⟨messages, none⟩
  else
    let userMessage : Message := ⟨"user", input⟩
    let newMessages := messages ++ [userMessage]
    match outcome with
    | .tokenError m =>
        ⟨newMessages ++ [⟨"assistant", "Sorry, there was an error: " ++ m⟩], none⟩
    | .httpError _ errField =>
        ⟨newMessages ++ [⟨"assistant",
            "Sorry, there was an error: "
              ++ jsOr errField "Failed to get a response from the server."⟩],
          some newMessages⟩
    | .success text =>
        ⟨newMessages ++ [⟨"assistant", text⟩], some newMessages⟩

/-- Result of one `part_002` `handleSend` run: the local `messages` state
(this variant never sets it inside `handleSend`; updates arrive through the
realtime subscription), whether the user-message database insert was
attempted, and the `history` field of the relay request when it was issued. -/
structure Part2SendResult where
  messages : List Message
  userInsertAttempted : Bool
  request : Option (List Message)
deriving Repr, DecidableEq

/-- JavaScript `xs.slice(-n)`: the last `n` elements (the whole list when it
has at most `n` elements). -/
def takeLast (n : Nat) (xs : List Message) : List Message :=
  xs.drop (xs.length - n)

/-- Function `ChatInterface.handleSend` of `part_002`: guard on trimmed-empty input or
a send in flight; insert the user message into the database (abort the send
when the insert fails); then issue the relay request with
`history = [...messages, userMessage].slice(-10)`. -/
def part2HandleSend (messages : List Message) (input : String)
    (isLoading : Bool) (insertOk : Bool) : Part2SendResult :=
  if jsTrim input = "" ∨ isLoading = true then ⟨messages, false, none⟩
  else
    let userMessage : Message := ⟨"user", input⟩
    if insertOk = false then ⟨messages, true, none⟩
    else ⟨messages, true, some (takeLast 10 (messages ++ [userMessage]))⟩

/-- The stub `ChatInterface.handleSend` of `part_005`, the first `App.jsx`
variant and the first two `part_006` variants: after the trimmed-empty guard
it only logs and clears the input — no network call, no message change. -/
def stubHandleSend (messages : List Message) (input : String) : SendResult :=
  if jsTrim input = "" then ⟨messages, none⟩ else ⟨messages, none⟩

/-- The welcome message of `part_002.fetchMessages`, chosen by
`mode === 'coach'`. -/
def part2WelcomeMessage (mode : String) : Message :=
  ⟨"assistant",
    if mode = "coach" then
      "Hello! I" ++ apos ++ "m your AI Master Coach. What would you like to work on today?"
    else
      "Hello! I" ++ apos ++ "m your AI Mentor. How can I help you today?"⟩

/-- Function `ChatInterface.fetchMessages` of `part_002`, run on mount for the current
mode: on a query error the messages state is left as it was; on success an
empty result list is replaced by the single welcome message, otherwise the
stored rows become the messages state. -/
def fetchMessagesUpdate (mode : String) (prev : List Message)
    (result : Except String (List Message)) : List Message :=
  match result with
  | .error _ => prev
  | .ok data => if data.length = 0 then [part2WelcomeMessage mode] else data

/-- Function `getInitialMessage` of the second `App.jsx` variant: the one-element list
holding the fixed assistant welcome message, chosen by `mode === 'coach'`. -/
def getInitialMessage (mode : String) : List Message :=
  [⟨"assistant",
    if mode = "coach" then
      "Hello! I" ++ apos ++ "m your AI Coach. Before we begin, I want to assure you that our conversation is completely confidential. I" ++ apos ++ "m here to provide a safe space for you to explore your thoughts.\n\nWhat" ++ apos ++ "s on your mind today?"
    else
      "Welcome. I" ++ apos ++ "m your AI Mentor. All of our discussions are confidential, so please feel free to speak openly. I" ++ apos ++ "m here to offer guidance and advice.\n\nTo start, could you tell me a bit about the challenge or topic you" ++ apos ++ "d like to work on?"⟩]

/-- The authentication actions `App.performSso` can attempt. -/
inductive AuthStep where
  | silent
  | popup
  | redirect
deriving Repr, DecidableEq, BEq

/-- The sequence of authentication attempts made by `App.performSso` in the
second `App.jsx` variant, as a function of whether each attempt would
succeed: `ssoSilent` always runs; its `.catch` runs `loginPopup` once; the
popup's `.catch` only logs the error, so nothing depends on `popupOk` and no
redirect is ever attempted by this flow. -/
def performSsoTrace (silentOk : Bool) (popupOk : Bool) : List AuthStep :=
  if silentOk then [.silent]
  else
    match popupOk with
    | true => [.silent, .popup]
    | false => [.silent, .popup]

/-- C1: for every POST request whose body parses as `{history, systemPrompt}`
and for which the upstream generation API responds OK, the serverless handler
returns statusCode 200 with a JSON `{response: string}` body; and for every
upstream non-OK response it returns the upstream status code with a JSON
`{error: string}` body.  (The API key must be configured, since otherwise the
upstream call is never issued and no upstream response exists.) -/
theorem handler_upstream_response_shape (a : Option String)
    (parsed : ParsedBody) (key : String) (hkey : key ≠ "")
    (result : GeminiResult) (status : Nat) (errBody : String) :
    handler ⟨"POST", a, .ok parsed⟩ (some key) (.ok result)
      = ⟨200, .jsonResponse (jsOr (extractText result) noResponseFallback)⟩ ∧
    handler ⟨"POST", a, .ok parsed⟩ (some key) (.err status errBody)
      = ⟨status, .jsonError ("API request failed: " ++ errBody)⟩ := by
  constructor <;> simp [handler, handlerTry, hkey]

/-- Closed instance of `handler_upstream_response_shape` at concrete inputs. -/
theorem handler_upstream_response_shape_witness :
    handler ⟨"POST", none, .ok ⟨[⟨"user", "hi"⟩], "prompt"⟩⟩ (some "k")
        (.ok ⟨some [⟨some ⟨some [⟨some "hello"⟩]⟩⟩]⟩)
      = ⟨200, .jsonResponse "hello"⟩ ∧
    handler ⟨"POST", none, .ok ⟨[⟨"user", "hi"⟩], "prompt"⟩⟩ (some "k")
        (.err 503 "service unavailable")
      = ⟨503, .jsonError "API request failed: service unavailable"⟩ := by
  have h := handler_upstream_response_shape none ⟨[⟨"user", "hi"⟩], "prompt"⟩
    "k" (by decide) ⟨some [⟨some ⟨some [⟨some "hello"⟩]⟩⟩]⟩ 503 "service unavailable"
  refine ⟨?_, h.2⟩
  rw [h.1]
  rfl

/-- C4: in the token-validating serverless variants, every POST request whose
Authorization header is absent, or does not start with `"Bearer "`, or whose
bearer token fails validation, gets statusCode 401 with a JSON
`{error: string}` body, and the upstream generation-API call is never
issued. -/
theorem validating_handler_unauthorized (validate : String → Except String Unit)
    (apiKey : Option String) (upstream : UpstreamResponse)
    (body : Except String ParsedBody) (hdr m : String) :
    (validatingHandler ⟨"POST", none, body⟩ validate apiKey upstream
        = ⟨⟨401, .jsonError "Unauthorized: No token provided."⟩, false⟩) ∧
    (jsStartsWith hdr "Bearer " = false →
      validatingHandler ⟨"POST", some hdr, body⟩ validate apiKey upstream
        = ⟨⟨401, .jsonError "Unauthorized: No token provided."⟩, false⟩) ∧
    (jsStartsWith hdr "Bearer " = true → validate (jsSubstringFrom 7 hdr) = .error m →
      validatingHandler ⟨"POST", some hdr, body⟩ validate apiKey upstream
        = ⟨⟨401, .jsonError ("Unauthorized: " ++ m)⟩, false⟩) := by
  refine ⟨rfl, ?_, ?_⟩
  · intro h
    simp [validatingHandler, h]
  · intro h1 h2
    simp [validatingHandler, h1, h2]

/-- Closed instance of `validating_handler_unauthorized` at concrete inputs:
a missing header, a non-Bearer header, and a rejected token. -/
theorem validating_handler_unauthorized_witness :
    (validatingHandler ⟨"POST", none, .ok ⟨[], "p"⟩⟩ (fun _ => .ok ())
        (some "k") (.ok ⟨none⟩)
      = ⟨⟨401, .jsonError "Unauthorized: No token provided."⟩, false⟩) ∧
    (validatingHandler ⟨"POST", some "Token abc", .ok ⟨[], "p"⟩⟩
        (fun _ => .ok ()) (some "k") (.ok ⟨none⟩)
      = ⟨⟨401, .jsonError "Unauthorized: No token provided."⟩, false⟩) ∧
    (validatingHandler ⟨"POST", some "Bearer abc", .ok ⟨[], "p"⟩⟩
        (fun _ => .error "jwt malformed") (some "k") (.ok ⟨none⟩)
      = ⟨⟨401, .jsonError ("Unauthorized: " ++ "jwt malformed")⟩, false⟩) := by
  have h1 := validating_handler_unauthorized (fun _ => .ok ()) (some "k")
    (.ok ⟨none⟩) (.ok ⟨[], "p"⟩) "Token abc" "x"
  have h2 := validating_handler_unauthorized (fun _ => .error "jwt malformed")
    (some "k") (.ok ⟨none⟩) (.ok ⟨[], "p"⟩) "Bearer abc" "jwt malformed"
  exact ⟨h1.1, h1.2.1 (by decide), h2.2.2 (by decide) rfl⟩

/-- C5 counterexample: in the token-validating variant (`part_000`,
`part_001`), an exception raised inside the handler body by token validation
is converted into a 401 response, not a 500 one, so "any exception … is
converted into … statusCode 500" fails on this concrete request. -/
theorem validation_exception_not_500 :
    (validatingHandler ⟨"POST", some "Bearer sometoken", .ok ⟨[], "p"⟩⟩
        (fun _ => .error "invalid signature") (some "k")
        (.ok ⟨none⟩)).response.statusCode = 401 ∧ (401 : Nat) ≠ 500 := by
  constructor
  · rfl
  · decide

/-- C5 amended: every exception raised inside a handler body is caught and
converted into a returned response with a JSON `{error: string}` body — with
statusCode 500 in `callGemini.js` and for parse errors in the validating
variants, and statusCode 401 for token-validation exceptions in the
validating variants; no handler propagates an exception to its caller. -/
theorem handler_catches_all_exceptions (apiKey : Option String)
    (upstream : UpstreamResponse) (a : Option String)
    (body : Except String ParsedBody) (validate : String → Except String Unit)
    (hdr e m : String) :
    (handlerTry apiKey upstream body = .error e →
      handler ⟨"POST", a, body⟩ apiKey upstream = ⟨500, .jsonError e⟩) ∧
    (jsStartsWith hdr "Bearer " = true → validate (jsSubstringFrom 7 hdr) = .error m →
      (validatingHandler ⟨"POST", some hdr, body⟩ validate apiKey
          upstream).response
        = ⟨401, .jsonError ("Unauthorized: " ++ m)⟩) ∧
    (jsStartsWith hdr "Bearer " = true → validate (jsSubstringFrom 7 hdr) = .ok () →
      body = .error e →
      (validatingHandler ⟨"POST", some hdr, body⟩ validate apiKey
          upstream).response
        = ⟨500, .jsonError e⟩) := by
  refine ⟨?_, ?_, ?_⟩
  · intro h
    simp [handler, h]
  · intro h1 h2
    simp [validatingHandler, h1, h2]
  · intro h1 h2 h3
    subst h3
    simp [validatingHandler, h1, h2]

/-- Closed instance of `handler_catches_all_exceptions`: an unparseable JSON
body gives 500 in `callGemini.js`, a rejected token gives 401 and an
unparseable body after a valid token gives 500 in the validating variant. -/
theorem handler_catches_all_exceptions_witness :
    (handler ⟨"POST", none, .error "Unexpected end of JSON input"⟩ (some "k")
        (.ok ⟨none⟩)
      = ⟨500, .jsonError "Unexpected end of JSON input"⟩) ∧
    ((validatingHandler ⟨"POST", some "Bearer t", .ok ⟨[], "p"⟩⟩
        (fun _ => .error "jwt expired") (some "k") (.ok ⟨none⟩)).response
      = ⟨401, .jsonError ("Unauthorized: " ++ "jwt expired")⟩) ∧
    ((validatingHandler ⟨"POST", some "Bearer t",
          .error "Unexpected end of JSON input"⟩
        (fun _ => .ok ()) (some "k") (.ok ⟨none⟩)).response
      = ⟨500, .jsonError "Unexpected end of JSON input"⟩) := by
  have h1 := handler_catches_all_exceptions (some "k") (.ok ⟨none⟩) none
    (.error "Unexpected end of JSON input") (fun _ => .ok ()) "Bearer t"
    "Unexpected end of JSON input" "m"
  have h2 := handler_catches_all_exceptions (some "k") (.ok ⟨none⟩) none
    (.ok ⟨[], "p"⟩) (fun _ => .error "jwt expired") "Bearer t"
    "Unexpected end of JSON input" "jwt expired"
  exact ⟨h1.1 rfl, h2.2.1 (by decide) rfl, h1.2.2 (by decide) rfl rfl⟩

/-- C10: when the upstream API responds OK but its result has no candidates,
or the first candidate has no content parts or no text (the optional chain
`extractText` yields nothing), the handlers still return statusCode 200 with
the fixed fallback string "Sorry, I couldn't get a response." -/
theorem handler_fallback_response (a : Option String) (parsed : ParsedBody)
    (key : String) (validate : String → Except String Unit) (hdr : String)
    (result : GeminiResult) (hkey : key ≠ "")
    (hnone : extractText result = none)
    (hhdr : jsStartsWith hdr "Bearer " = true)
    (hval : validate (jsSubstringFrom 7 hdr) = .ok ()) :
    handler ⟨"POST", a, .ok parsed⟩ (some key) (.ok result)
      = ⟨200, .jsonResponse noResponseFallback⟩ ∧
    validatingHandler ⟨"POST", some hdr, .ok parsed⟩ validate (some key)
        (.ok result)
      = ⟨⟨200, .jsonResponse noResponseFallback⟩, true⟩ := by
  constructor
  · simp [handler, handlerTry, hkey, hnone, jsOr]
  · simp [validatingHandler, hhdr, hval, hkey, hnone, jsOr]

/-- Closed instance of `handler_fallback_response` with a result carrying no
candidates at all. -/
theorem handler_fallback_response_witness :
    handler ⟨"POST", none, .ok ⟨[], "p"⟩⟩ (some "k") (.ok ⟨none⟩)
      = ⟨200, .jsonResponse noResponseFallback⟩ ∧
    validatingHandler ⟨"POST", some "Bearer t", .ok ⟨[], "p"⟩⟩
        (fun _ => .ok ()) (some "k") (.ok ⟨none⟩)
      = ⟨⟨200, .jsonResponse noResponseFallback⟩, true⟩ := by
  exact handler_fallback_response none ⟨[], "p"⟩ "k" (fun _ => .ok ())
    "Bearer t" ⟨none⟩ (by decide) rfl (by decide) rfl

/-- C3: for every input string that is empty or whitespace-only, `handleSend`
performs no network call (no relay request, no token acquisition, no database
insert) and leaves the messages list unchanged, in every `ChatInterface`
variant (modelled here: the second `App.jsx` variant, `part_003`, `part_002`,
and the stub shared by `part_005`, the first `App.jsx` variant and the first
two `part_006` variants; the remaining variants repeat one of these guards
verbatim). -/
theorem empty_input_never_sends (messages : List Message) (input : String)
    (isLoading insertOk : Bool) (o2 : RelayOutcome) (o3 : Relay3Outcome)
    (h : jsTrim input = "") :
    appHandleSend messages input isLoading o2 = ⟨messages, none⟩ ∧
    part3HandleSend messages input isLoading o3 = ⟨messages, none⟩ ∧
    part2HandleSend messages input isLoading insertOk
      = ⟨messages, false, none⟩ ∧
    stubHandleSend messages input = ⟨messages, none⟩ := by
  refine ⟨?_, ?_, ?_, ?_⟩ <;>
    simp [appHandleSend, part3HandleSend, part2HandleSend, stubHandleSend, h]

/-- Closed instance of `empty_input_never_sends` on a whitespace-only
input. -/
theorem empty_input_never_sends_witness :
    appHandleSend [⟨"assistant", "w"⟩] "   " false (.success "r")
      = ⟨[⟨"assistant", "w"⟩], none⟩ ∧
    part3HandleSend [⟨"assistant", "w"⟩] "   " false (.success "r")
      = ⟨[⟨"assistant", "w"⟩], none⟩ ∧
    part2HandleSend [⟨"assistant", "w"⟩] "   " false true
      = ⟨[⟨"assistant", "w"⟩], false, none⟩ ∧
    stubHandleSend [⟨"assistant", "w"⟩] "   "
      = ⟨[⟨"assistant", "w"⟩], none⟩ :=
  empty_input_never_sends [⟨"assistant", "w"⟩] "   " false true
    (.success "r") (.success "r") (by decide)

/-- C2 counterexample: in the second `App.jsx` variant, a relay response with
status 500 and body text "boom" makes `handleSend` append an assistant
message carrying only the status code; the error body text "boom" does not
occur in the appended message (its character list has no "boom" infix). -/
theorem error_body_not_surfaced :
    (appHandleSend [] "hi" false (.httpError 500 "boom")).messages
      = [⟨"user", "hi"⟩,
         ⟨"assistant",
           "Sorry, there was an error: API call failed with status: 500"⟩] ∧
    ¬ ("boom".data <:+:
        ("Sorry, there was an error: API call failed with status: 500").data) := by
  constructor
  · rfl
  · decide

/-- C2 amended: for every relay call by `handleSend` that receives an HTTP
status ≥ 400, an assistant error message is appended immediately after the
just-sent user message; in the `part_003` variant it embeds the `error` field
of the response body (falling back to a fixed default when that field is
absent or empty), while in the second `App.jsx` variant it embeds the failing
HTTP status code and never reads the response body. -/
theorem relay_error_message_appended (messages : List Message)
    (input : String) (status : Nat) (bodyText errField : String)
    (hne : jsTrim input ≠ "") (hst : 400 ≤ status) (hef : errField ≠ "") :
    (part3HandleSend messages input false
        (.httpError status (some errField))).messages
      = messages ++ [⟨"user", input⟩,
          ⟨"assistant", "Sorry, there was an error: " ++ errField⟩] ∧
    (appHandleSend messages input false
        (.httpError status bodyText)).messages
      = messages ++ [⟨"user", input⟩,
          ⟨"assistant",
            "Sorry, there was an error: API call failed with status: "
              ++ toString status⟩] := by
  constructor <;> simp [part3HandleSend, appHandleSend, hne, jsOr, hef]

/-- Closed instance of `relay_error_message_appended` at a 404 response. -/
theorem relay_error_message_appended_witness :
    (part3HandleSend [] "hi" false (.httpError 404 (some "not found"))).messages
      = [⟨"user", "hi"⟩,
         ⟨"assistant", "Sorry, there was an error: not found"⟩] ∧
    (appHandleSend [] "hi" false (.httpError 404 "not found")).messages
      = [⟨"user", "hi"⟩,
         ⟨"assistant",
           "Sorry, there was an error: API call failed with status: 404"⟩] := by
  have h := relay_error_message_appended [] "hi" 404 "not found" "not found"
    (by decide) (by decide) (by decide)
  exact ⟨h.1, h.2⟩

/-- Ten stored messages, used to exhibit the `slice(-10)` truncation. -/
def tenMessages : List Message := List.replicate 10 ⟨"assistant", "x"⟩

/-- C6 counterexample: with ten prior messages, the `part_002` `handleSend`
issues a relay request whose history is not the entire visible conversation —
`[...messages, userMessage].slice(-10)` drops the oldest message. -/
theorem sliced_history_not_entire_conversation :
    (part2HandleSend tenMessages "hello" false true).request
      ≠ some (tenMessages ++ [⟨"user", "hello"⟩]) := by
  decide

/-- C6 amended: every relay request issued by `handleSend` carries as its
history the conversation `messages ++ [userMessage]` — in full in the second
`App.jsx` variant, but truncated to the last 10 entries in the `part_002`
variant (the two agree whenever at most 9 prior messages exist). -/
theorem relay_request_history (messages : List Message)
    (input r bt : String) (st : Nat) (hne : jsTrim input ≠ "") :
    (appHandleSend messages input false (.success r)).request
      = some (messages ++ [⟨"user", input⟩]) ∧
    (appHandleSend messages input false (.httpError st bt)).request
      = some (messages ++ [⟨"user", input⟩]) ∧
    (part2HandleSend messages input false true).request
      = some (takeLast 10 (messages ++ [⟨"user", input⟩])) ∧
    (messages.length ≤ 9 →
      takeLast 10 (messages ++ [⟨"user", input⟩])
        = messages ++ [⟨"user", input⟩]) := by
  refine ⟨?_, ?_, ?_, ?_⟩
  · simp [appHandleSend, hne]
  · simp [appHandleSend, hne]
  · simp [part2HandleSend, hne]
  · intro hlen
    have hz : (messages ++ [(⟨"user", input⟩ : Message)]).length - 10 = 0 := by
      simp only [List.length_append, List.length_cons, List.length_nil]
      omega
    simp only [takeLast, hz, List.drop_zero]

/-- Closed instance of `relay_request_history` with one prior message. -/
theorem relay_request_history_witness :
    (appHandleSend [⟨"assistant", "w"⟩] "hi" false (.success "r")).request
      = some [⟨"assistant", "w"⟩, ⟨"user", "hi"⟩] ∧
    (part2HandleSend [⟨"assistant", "w"⟩] "hi" false true).request
      = some [⟨"assistant", "w"⟩, ⟨"user", "hi"⟩] := by
  have h := relay_request_history [⟨"assistant", "w"⟩] "hi" "r" "b" 500
    (by decide)
  exact ⟨h.1, h.2.2.1⟩

/-- C7: on a mode switch, the visible conversation becomes the mode's stored
history when the backend query returns a non-empty list, and becomes the
single fixed assistant welcome message otherwise — determined only by whether
the mode is `'coach'`; likewise `getInitialMessage` is one fixed assistant
welcome message determined by `'coach'` versus any other mode. -/
theorem mode_switch_messages (mode : String) (prev data : List Message)
    (hne : data ≠ []) :
    fetchMessagesUpdate mode prev (.ok data) = data ∧
    fetchMessagesUpdate mode prev (.ok []) = [part2WelcomeMessage mode] ∧
    (part2WelcomeMessage mode).role = "assistant" ∧
    (getInitialMessage mode).length = 1 ∧
    ((getInitialMessage mode).head?.map Message.role) = some "assistant" ∧
    (mode ≠ "coach" →
      part2WelcomeMessage mode = part2WelcomeMessage "mentor" ∧
      getInitialMessage mode = getInitialMessage "mentor") := by
  refine ⟨?_, rfl, rfl, rfl, rfl, ?_⟩
  · simp [fetchMessagesUpdate, List.length_eq_zero, hne]
  · intro hmode
    constructor <;> simp [part2WelcomeMessage, getInitialMessage, hmode]

/-- Closed instance of `mode_switch_messages` at mode `"mentor"`. -/
theorem mode_switch_messages_witness :
    fetchMessagesUpdate "mentor" [] (.ok [⟨"user", "x"⟩]) = [⟨"user", "x"⟩] ∧
    fetchMessagesUpdate "mentor" [] (.ok []) = [part2WelcomeMessage "mentor"] ∧
    (part2WelcomeMessage "mentor").role = "assistant" ∧
    (getInitialMessage "mentor").length = 1 := by
  have h := mode_switch_messages "mentor" [] [⟨"user", "x"⟩] (by decide)
  exact ⟨h.1, h.2.1, h.2.2.1, h.2.2.2.1⟩

/-- C8 counterexample: when both the silent acquisition and the popup fail,
`performSso` attempts silent then popup and stops — no full-page redirect is
ever attempted by this flow, contradicting "on the popup's failure it
attempts a full-page redirect exactly once". -/
theorem no_redirect_after_popup_failure :
    performSsoTrace false false = [.silent, .popup] ∧
    (performSsoTrace false false).count .redirect = 0 := by
  constructor
  · rfl
  · decide

/-- C8 amended: `performSso` attempts silent token acquisition first; on its
failure it attempts a popup login exactly once; the popup's failure is only
logged — no automatic full-page redirect is triggered by it (a redirect
exists only as a manual sign-in action elsewhere); no step is ever retried,
and the popup is triggered only by the silent step's failure. -/
theorem performSso_attempt_sequence (silentOk popupOk : Bool) :
    (performSsoTrace silentOk popupOk).head? = some .silent ∧
    (performSsoTrace silentOk popupOk).count .silent = 1 ∧
    (performSsoTrace silentOk popupOk).count .popup
      = (if silentOk then 0 else 1) ∧
    (performSsoTrace silentOk popupOk).count .redirect = 0 := by
  cases silentOk <;> cases popupOk <;> exact ⟨rfl, by decide, by decide, by decide⟩

/-- C9: across every operation of a chat turn (`handleSend` in the second
`App.jsx` variant and in `part_003`), the messages list is only appended to —
the previous list stays a prefix — and every appended message has role
`"user"` or `"assistant"`. -/
theorem chat_turn_append_only (messages : List Message) (input : String)
    (isLoading : Bool) (o2 : RelayOutcome) (o3 : Relay3Outcome) :
    messages <+: (appHandleSend messages input isLoading o2).messages ∧
    (((appHandleSend messages input isLoading o2).messages.drop
        messages.length).all
      (fun m => m.role == "user" || m.role == "assistant") = true) ∧
    messages <+: (part3HandleSend messages input isLoading o3).messages ∧
    (((part3HandleSend messages input isLoading o3).messages.drop
        messages.length).all
      (fun m => m.role == "user" || m.role == "assistant") = true) := by
  by_cases h : jsTrim input = "" ∨ isLoading = true
  · refine ⟨?_, ?_, ?_, ?_⟩ <;> simp [appHandleSend, part3HandleSend, h]
  · refine ⟨?_, ?_, ?_, ?_⟩
    · cases o2 <;> simp [appHandleSend, h]
    · cases o2 <;> simp [appHandleSend, h, List.drop_left]
    · cases o3 <;> simp [part3HandleSend, h]
    · cases o3 <;> simp [part3HandleSend, h, List.drop_left]

end Smartlinks
